import Mathlib

/-!
Shallow embedding of the stream-spike reconciliation controller
(`src/pkg/stream/controller.go`) and proofs of the specification claims
about it.

The embedding models the controller's pure decision logic explicitly:
object metadata, owner references, the cache lookups, the sync handler,
the dispatch step, and the event-routing functions.  Remote mutator calls
are threaded through an explicit `Remote ρ` record of state-passing
oracles, so that transient failures can be injected and a concrete
deterministic remote store can be instantiated for whole-state claims.
-/

namespace StreamSpike

/-- Owner reference embedded in a dependent object's metadata
(`metav1.OwnerReference`): kind, name and uid of the owner plus the
controller flag, as produced by `metav1.NewControllerRef`. -/
structure OwnerReference where
  apiVersion : String
  kind : String
  name : String
  uid : String
  controller : Bool
  blockOwnerDeletion : Bool
deriving DecidableEq, Repr

/-- Object metadata (`metav1.ObjectMeta`), restricted to the fields the
controller reads or writes: namespace (`ns`), name, labels, owner
references, the opaque resource version and uid. -/
structure ObjectMeta where
  name : String
  ns : String
  labels : List (String × String)
  ownerReferences : List OwnerReference
  resourceVersion : String
  uid : String
deriving DecidableEq, Repr

/-- Modelled from the spec: the Stream spec type
(`pkg/apis/spike.local/v1alpha1`, not under src/) is opaque to the core
("desired state, opaque to this core"), so it is embedded as an opaque
wrapper the controller never inspects. -/
structure StreamSpec where
  val : String
deriving DecidableEq, Repr

/-- Modelled from the spec: the Stream status type
(`pkg/apis/spike.local/v1alpha1`, not under src/) is loosely specified
("last-observed convergence result"), so it is embedded as an opaque
wrapper. -/
structure StreamStatus where
  val : String
deriving DecidableEq, Repr

/-- The Stream owner resource: metadata plus opaque spec and status. -/
structure Stream where
  meta : ObjectMeta
  spec : StreamSpec
  status : StreamStatus
deriving DecidableEq, Repr

/-- A port entry of a Service spec (`corev1.ServicePort`); the controller
only ever sets the port number. -/
structure ServicePort where
  port : Int
deriving DecidableEq, Repr

/-- The part of `corev1.ServiceSpec` the controller writes: the port list
and the service type. -/
structure ServiceSpec where
  ports : List ServicePort
  type : String
deriving DecidableEq, Repr

/-- The Service dependent resource: metadata plus spec. -/
structure Service where
  meta : ObjectMeta
  spec : ServiceSpec
deriving DecidableEq, Repr

/-- The generated deep copy of a Stream (`stream.DeepCopy()`): in value
semantics it reproduces every field unchanged. -/
def Stream.deepCopy (s : Stream) : Stream :=
  ⟨s.meta, s.spec, s.status⟩

/-- Returns the controlling owner reference of an object, if any
(`metav1.GetControllerOf`): the owner reference whose controller flag is
set. -/
def GetControllerOf (m : ObjectMeta) : Option OwnerReference :=
  m.ownerReferences.find? (fun ref => ref.controller)

/-- Whether `obj` is controlled by `owner` (`metav1.IsControlledBy`):
its controlling owner reference exists and carries the owner's uid. -/
def IsControlledBy (obj owner : ObjectMeta) : Bool :=
  match GetControllerOf obj with
  | none => false
  | some ref => ref.uid == owner.uid

/-- Group of the spike.local scheme (`spikev1alpha1.SchemeGroupVersion.Group`). -/
def SchemeGroup : String := "spike.local"

/-- Version of the spike.local scheme (`spikev1alpha1.SchemeGroupVersion.Version`). -/
def SchemeVersion : String := "v1alpha1"

/-- Builds a controller owner reference to `owner` (`metav1.NewControllerRef`):
controller and blockOwnerDeletion flags set, carrying the owner's name and
uid and the given group/version/kind. -/
def NewControllerRef (owner : ObjectMeta) (group version kind : String) : OwnerReference :=
  ⟨group ++ "/" ++ version, kind, owner.name, owner.uid, true, true⟩

/-- Modelled from the spec: `StreamServiceName` lives in `pkg/names`,
which is not under src/; the spec fixes only that the Service name is a
pure deterministic function of the Stream name, e.g. a stable
prefix/suffix concatenation, stable across reconciliation passes. -/
def StreamServiceName (streamName : String) : String :=
  streamName ++ "-service"

/-- Splits a character list on the slash character, preserving empty
parts, as `strings.Split(key, "/")` does. -/
def splitSlashAux : List Char → List Char → List (List Char) → List (List Char)
  | [], cur, acc => acc ++ [cur.reverse]
  | c :: rest, cur, acc =>
      if c = '/' then splitSlashAux rest [] (acc ++ [cur.reverse])
      else splitSlashAux rest (c :: cur) acc

/-- All slash-separated parts of a string, as `strings.Split(key, "/")`. -/
def splitSlash (s : String) : List String :=
  (splitSlashAux s.data [] []).map (fun cs => String.mk cs)

/-- Parses a `namespace/name` key (`cache.SplitMetaNamespaceKey`): one
part means cluster-scoped (empty namespace), two parts mean
namespace/name, anything else is a malformed key. -/
def SplitMetaNamespaceKey (key : String) : Option (String × String) :=
  match splitSlash key with
  | [name] => some ("", name)
  | [ns, name] => some (ns, name)
  | _ => none

/-- Computes an object's work-queue key (`cache.MetaNamespaceKeyFunc`):
`namespace/name`, or just `name` when the namespace is empty. -/
def MetaNamespaceKeyFunc (m : ObjectMeta) : String :=
  if m.ns = "" then m.name else m.ns ++ "/" ++ m.name

/-- Event reason for a successful sync (`SuccessSynced`). -/
def SuccessSynced : String := "Synced"

/-- Event reason for a sync that fails because a Service of the same name
already exists (`ErrResourceExists`). -/
def ErrResourceExists : String := "ErrResourceExists"

/-- Event message for a colliding resource
(`fmt.Sprintf(MessageResourceExists, name)` with the `%q` quoting). -/
def MessageResourceExists (name : String) : String :=
  "Resource \"" ++ name ++ "\" already exists and is not managed by Stream"

/-- Event message for a successful sync (`MessageResourceSynced`). -/
def MessageResourceSynced : String := "Stream synced successfully"

/-- The new Service derived from a Stream (`newService`): derived name,
the Stream's namespace, a `stream` label naming the Stream, one controller
owner reference at the Stream, and the fixed spec (one port 80, type
NodePort). -/
def newService (stream : Stream) : Service :=
  ⟨⟨StreamServiceName stream.meta.name,
    stream.meta.ns,
    [("stream", stream.meta.name)],
    [NewControllerRef stream.meta SchemeGroup SchemeVersion "Stream"],
    "", ""⟩,
   ⟨[⟨80⟩], "NodePort"⟩⟩

/-- The local informer cache: the indexed snapshots behind
`streamsLister` and `servicesLister`. -/
structure CacheState where
  streams : List Stream
  services : List Service
deriving DecidableEq, Repr

/-- Cache lookup of a Stream by namespace and name
(`c.streamsLister.Streams(namespace).Get(name)`); `none` models the
not-found error. -/
def getStream (cache : CacheState) (ns name : String) : Option Stream :=
  cache.streams.find? (fun s => s.meta.ns == ns && s.meta.name == name)

/-- Cache lookup of a Service by namespace and name
(`c.servicesLister.Services(namespace).Get(name)`); `none` models the
not-found error. -/
def getService (cache : CacheState) (ns name : String) : Option Service :=
  cache.services.find? (fun v => v.meta.ns == ns && v.meta.name == name)

/-- The remote mutator (`kubeclientset` / `streamclientset`): a pair of
state-passing calls over a remote-world type `ρ`, each returning either
the stored object or an error message. -/
structure Remote (ρ : Type) where
  createService : Service → ρ → Except String Service × ρ
  updateStream : Stream → ρ → Except String Stream × ρ

/-- An audit event emitted through `c.recorder.Event`: event type
(Normal or Warning), reason and message. -/
structure RecordedEvent where
  eventType : String
  reason : String
  message : String
deriving DecidableEq, Repr

/-- The observable side effects of one sync pass: the Service objects
passed to the remote create, the Stream objects passed to the remote
update, and the audit events recorded, each in execution order. -/
structure SyncTrace where
  creates : List Service
  updates : List Stream
  events : List RecordedEvent
deriving DecidableEq, Repr

/-- Persists the Stream's status (`Controller.updateStreamStatus`): deep
copies the cached Stream without modifying any field and sends the copy
to the remote Update call. -/
def updateStreamStatus (remote : Remote ρ) (stream : Stream) (_service : Service) (r : ρ) :
    Except String Stream × ρ :=
  remote.updateStream stream.deepCopy r

/-- The tail of `Controller.syncHandler` once a Service (found in the
cache or just created) is at hand: the ownership check, the status update
and the success event.  `creates` carries the create attempts already
traced. -/
def syncOnService (remote : Remote ρ) (stream : Stream) (service : Service)
    (creates : List Service) (r : ρ) : Except String Unit × SyncTrace × ρ :=
  if IsControlledBy service.meta stream.meta then
    match updateStreamStatus remote stream service r with
    | (Except.error e, r1) => (Except.error e, ⟨creates, [stream.deepCopy], []⟩, r1)
    | (Except.ok _, r1) =>
        (Except.ok (), ⟨creates, [stream.deepCopy],
          [⟨"Normal", SuccessSynced, MessageResourceSynced⟩]⟩, r1)
  else
    (Except.error (MessageResourceExists service.meta.name),
     ⟨creates, [], [⟨"Warning", ErrResourceExists,
        MessageResourceExists service.meta.name⟩]⟩, r)

/-- The per-key sync algorithm (`Controller.syncHandler`): parse the key,
look up the Stream (absent means done), look up the derived Service
(absent means remote create), check ownership, then update the status and
record the success event. -/
def syncHandler (remote : Remote ρ) (cache : CacheState) (key : String) (r : ρ) :
    Except String Unit × SyncTrace × ρ :=
  match SplitMetaNamespaceKey key with
  | none => (Except.ok (), ⟨[], [], []⟩, r)
  | some (ns, name) =>
    match getStream cache ns name with
    | none => (Except.ok (), ⟨[], [], []⟩, r)
    | some stream =>
      let serviceName := StreamServiceName name
      match getService cache stream.meta.ns serviceName with
      | none =>
        match remote.createService (newService stream) r with
        | (Except.error e, r1) => (Except.error e, ⟨[newService stream], [], []⟩, r1)
        | (Except.ok service, r1) =>
            syncOnService remote stream service [newService stream] r1
      | some service => syncOnService remote stream service [] r

/-- An item on the work queue as seen by a worker: the expected
namespace/name string, or a value of some other type. -/
inductive WQItem where
  | key (s : String)
  | other
deriving DecidableEq, Repr

/-- A call a worker makes back into the work queue while handling one
dequeued item. -/
inductive QueueAction where
  | done (item : WQItem)
  | forget (item : WQItem)
  | addRateLimited (key : String)
deriving DecidableEq, Repr

/-- One dispatch step (`Controller.processNextWorkItem`) given the
dequeued item (`none` models queue shutdown) and the sync outcome per
key: returns whether the worker loop continues, the queue calls made in
execution order (the deferred Done always last), and the error handed to
`runtime.HandleError`, if any. -/
def processNextWorkItem (got : Option WQItem) (sync : String → Except String Unit) :
    Bool × List QueueAction × Option String :=
  match got with
  | none => (false, [], none)
  | some WQItem.other =>
      (true, [QueueAction.forget WQItem.other, QueueAction.done WQItem.other],
       some "expected string in workqueue")
  | some (WQItem.key k) =>
      match sync k with
      | Except.error e =>
          (true, [QueueAction.done (WQItem.key k)],
           some ("error syncing '" ++ k ++ "': " ++ e))
      | Except.ok _ =>
          (true, [QueueAction.forget (WQItem.key k), QueueAction.done (WQItem.key k)], none)

/-- A call the event router makes into the work queue. -/
inductive EnqueueAction where
  | add (key : String)
  | addRateLimited (key : String)
deriving DecidableEq, Repr

/-- Enqueues a Stream's key (`Controller.enqueueStream`): computes the
namespace/name key of the object itself and calls `AddRateLimited`. -/
def enqueueStream (stream : Stream) : EnqueueAction :=
  EnqueueAction.addRateLimited (MetaNamespaceKeyFunc stream.meta)

/-- The Stream informer add handler (`AddFunc: controller.enqueueStream`). -/
def streamOnAdd (stream : Stream) : EnqueueAction :=
  enqueueStream stream

/-- The Stream informer update handler: drops the old object and
enqueues the new one (`UpdateFunc: func(old, new) { enqueueStream(new) }`). -/
def streamOnUpdate (_old new : Stream) : EnqueueAction :=
  enqueueStream new

/-- A notification delivered to `Controller.handleObject`: a live object
or tombstone carrying usable metadata, a tombstone whose payload fails
the metadata cast, or a value of an entirely invalid type. -/
inductive HandleInput where
  | object (m : ObjectMeta)
  | tombstone (m : ObjectMeta)
  | badTombstone
  | invalidType
deriving DecidableEq, Repr

/-- The body of `Controller.handleObject` once metadata is recovered:
resolve the controlling owner reference, require its kind to be Stream,
look the owner up in the Stream cache, and enqueue it; in every other
case enqueue nothing. -/
def handleObjectMeta (cache : CacheState) (m : ObjectMeta) : Option EnqueueAction :=
  match GetControllerOf m with
  | none => none
  | some ownerRef =>
    if ownerRef.kind ≠ "Stream" then none
    else
      match getStream cache m.ns ownerRef.name with
      | none => none
      | some stream => some (enqueueStream stream)

/-- The dependent event router (`Controller.handleObject`): recovers
metadata (also from tombstones) and routes through `handleObjectMeta`;
values of invalid type and undecodable tombstones enqueue nothing. -/
def handleObject (cache : CacheState) (input : HandleInput) : Option EnqueueAction :=
  match input with
  | HandleInput.invalidType => none
  | HandleInput.badTombstone => none
  | HandleInput.object m => handleObjectMeta cache m
  | HandleInput.tombstone m => handleObjectMeta cache m

/-- The remote object store (`kubeclientset` plus `streamclientset`
backends), indexed like the cache. -/
structure RemoteState where
  streams : List Stream
  services : List Service
deriving DecidableEq, Repr

/-- Remote Service create: fails when an object of the same
namespace/name already exists, otherwise stores the new object as-is. -/
def remoteCreateService (svc : Service) (r : RemoteState) :
    Except String Service × RemoteState :=
  if r.services.any (fun v => v.meta.ns == svc.meta.ns && v.meta.name == svc.meta.name) then
    (Except.error "already exists", r)
  else
    (Except.ok svc, ⟨r.streams, r.services ++ [svc]⟩)

/-- Replaces every stored Stream of the same namespace/name by `st`. -/
def replaceStream (st : Stream) (l : List Stream) : List Stream :=
  l.map (fun s =>
    if s.meta.ns == st.meta.ns && s.meta.name == st.meta.name then st else s)

/-- Modelled from the spec and the controller's own comment: the
generated typed client's `Update` (`pkg/client`, not under src/) is a
full-object update — the comment in `updateStreamStatus` notes that
unlike `UpdateStatus` it allows changes to the Spec — replacing the
stored object of the same namespace/name wholesale.  This is the
happy-path store model: it elides the store's optimistic-concurrency
conflict check, so it coincides with the real semantics exactly when the
cached object agrees with the stored one (a no-op update); the
conflict-detecting model is `remoteUpdateStreamOCC`. -/
def remoteUpdateStream (st : Stream) (r : RemoteState) :
    Except String Stream × RemoteState :=
  (Except.ok st, ⟨replaceStream st r.streams, r.services⟩)

/-- The deterministic remote mutator over `RemoteState`. -/
def remoteApi : Remote RemoteState :=
  ⟨remoteCreateService, remoteUpdateStream⟩

/-- One sync pass against the deterministic remote store. -/
def runSync (cache : CacheState) (key : String) (r : RemoteState) :
    Except String Unit × SyncTrace × RemoteState :=
  syncHandler remoteApi cache key r

/-- Modelled from the spec: the remote store's `Update` is subject to
optimistic concurrency — the opaque resourceVersion token "is used to
detect no-op updates and conflicting writes" — so a full-object write
whose resourceVersion does not match the stored object's is rejected as
a conflict (a retriable transient failure), an update of an absent
object fails, and only a matching write replaces the stored object. -/
def remoteUpdateStreamOCC (st : Stream) (r : RemoteState) :
    Except String Stream × RemoteState :=
  match r.streams.find? (fun s => s.meta.ns == st.meta.ns && s.meta.name == st.meta.name) with
  | none => (Except.error "not found", r)
  | some stored =>
      if stored.meta.resourceVersion == st.meta.resourceVersion then
        (Except.ok st, ⟨replaceStream st r.streams, r.services⟩)
      else
        (Except.error "conflict", r)

/-- The remote mutator with the conflict-detecting Update. -/
def remoteApiOCC : Remote RemoteState :=
  ⟨remoteCreateService, remoteUpdateStreamOCC⟩

/-- One sync pass against the conflict-detecting remote store. -/
def runSyncOCC (cache : CacheState) (key : String) (r : RemoteState) :
    Except String Unit × SyncTrace × RemoteState :=
  syncHandler remoteApiOCC cache key r

/-- Concrete Stream fixture used by witnesses. -/
def wStream : Stream := ⟨⟨"s1", "ns", [], [], "rv1", "u1"⟩, ⟨"specB"⟩, ⟨"ok"⟩⟩

/-- The Service derived from the fixture Stream. -/
def wService : Service := newService wStream

/-- Cache holding the fixture Stream and its controlled Service. -/
def wCacheBoth : CacheState := ⟨[wStream], [wService]⟩

/-- Cache holding the fixture Stream and no Service. -/
def wCacheNoSvc : CacheState := ⟨[wStream], []⟩

/-- The empty cache. -/
def wCacheEmpty : CacheState := ⟨[], []⟩

/-- A pre-existing Service occupying the derived name with no owner
references at all. -/
def wForeignService : Service := ⟨⟨"s1-service", "ns", [], [], "rv9", "zz"⟩, ⟨[], ""⟩⟩

/-- Cache holding the fixture Stream and the colliding foreign Service. -/
def wCacheForeign : CacheState := ⟨[wStream], [wForeignService]⟩

/-- A remote mutator whose calls all succeed and carry no state. -/
def wRemoteOk : Remote Unit :=
  ⟨fun v r => (Except.ok v, r), fun s r => (Except.ok s, r)⟩

/-- A remote mutator whose Service create fails transiently. -/
def wRemoteCreateFail : Remote Unit :=
  ⟨fun _ r => (Except.error "connection refused", r), fun s r => (Except.ok s, r)⟩

/-- Remote store agreeing with `wCacheBoth`. -/
def wRemoteBoth : RemoteState := ⟨[wStream], [wService]⟩

end StreamSpike

namespace StreamSpike

/-- Helper: `syncOnService` propagates the create trace it is given,
whatever branch it takes. -/
theorem syncOnService_creates (remote : Remote ρ) (stream : Stream) (service : Service)
    (cs : List Service) (r : ρ) :
    (syncOnService remote stream service cs r).2.1.creates = cs := by
  unfold syncOnService
  by_cases h : IsControlledBy service.meta stream.meta
  · simp only [h, if_true]
    rcases hu : updateStreamStatus remote stream service r with ⟨res, r1⟩
    cases res <;> simp
  · simp [h]

/-- C1: the claim says a dequeued key whose sync fails (other than a
malformed key) is re-added via `AddRateLimited` for backoff retry; the
code only calls the deferred `Done` — no `Forget`, as claimed, but also
no `AddRateLimited` — so the failed key is dropped, contradicting the
code's own comment that the item "is put back on the workqueue".  The
worker loop does continue. -/
theorem retry_dropped_on_sync_failure :
    processNextWorkItem (some (WQItem.key "ns/s1")) (fun _ => Except.error "connection refused") =
      (true, [QueueAction.done (WQItem.key "ns/s1")],
       some "error syncing 'ns/s1': connection refused") := rfl

/-- C4: when the derived Service exists in the cache but is not
controlled by the Stream, the sync records one warning audit event with
the collision message, returns that message as its failure, and performs
no remote write at all — no create, no update, and the remote world is
returned untouched. -/
theorem collision_warns_fails_untouched (remote : Remote ρ) (cache : CacheState)
    (key ns name : String) (stream : Stream) (service : Service) (r : ρ)
    (hsplit : SplitMetaNamespaceKey key = some (ns, name))
    (hstream : getStream cache ns name = some stream)
    (hsvc : getService cache stream.meta.ns (StreamServiceName name) = some service)
    (hctl : IsControlledBy service.meta stream.meta = false) :
    syncHandler remote cache key r =
      (Except.error (MessageResourceExists service.meta.name),
       ⟨[], [], [⟨"Warning", ErrResourceExists, MessageResourceExists service.meta.name⟩]⟩,
       r) := by
  simp [syncHandler, syncOnService, hsplit, hstream, hsvc, hctl]

/-- Witness for C4 at the concrete colliding fixture. -/
theorem collision_warns_fails_untouched_witness :
    SplitMetaNamespaceKey "ns/s1" = some ("ns", "s1") ∧
    getStream wCacheForeign "ns" "s1" = some wStream ∧
    getService wCacheForeign "ns" (StreamServiceName "s1") = some wForeignService ∧
    IsControlledBy wForeignService.meta wStream.meta = false ∧
    syncHandler wRemoteOk wCacheForeign "ns/s1" () =
      (Except.error (MessageResourceExists "s1-service"),
       ⟨[], [], [⟨"Warning", ErrResourceExists, MessageResourceExists "s1-service"⟩]⟩,
       ()) :=
  ⟨rfl, rfl, rfl, rfl,
   collision_warns_fails_untouched wRemoteOk wCacheForeign "ns/s1" "ns" "s1"
     wStream wForeignService () rfl rfl rfl rfl⟩

/-- C5: when the key parses but no Stream of that namespace/name is in
the cache, the sync treats the Stream as already deleted: it returns
success with no remote write and no event. -/
theorem missing_stream_is_success (remote : Remote ρ) (cache : CacheState)
    (key ns name : String) (r : ρ)
    (hsplit : SplitMetaNamespaceKey key = some (ns, name))
    (hstream : getStream cache ns name = none) :
    syncHandler remote cache key r = (Except.ok (), ⟨[], [], []⟩, r) := by
  simp [syncHandler, hsplit, hstream]

/-- Witness for C5 on the empty cache. -/
theorem missing_stream_is_success_witness :
    SplitMetaNamespaceKey "ns/s1" = some ("ns", "s1") ∧
    getStream wCacheEmpty "ns" "s1" = none ∧
    syncHandler wRemoteOk wCacheEmpty "ns/s1" () = (Except.ok (), ⟨[], [], []⟩, ()) :=
  ⟨rfl, rfl, missing_stream_is_success wRemoteOk wCacheEmpty "ns/s1" "ns" "s1" () rfl rfl⟩

/-- C7 counterexample: the claim says a Stream add notification is
enqueued with the immediate idempotent `Add`; on a concrete Stream the
router's action is `AddRateLimited`, not `Add`. -/
theorem enqueueStream_uses_rate_limited_not_add :
    streamOnAdd wStream ≠ EnqueueAction.add "ns/s1" ∧
    streamOnAdd wStream = EnqueueAction.addRateLimited "ns/s1" := by
  refine ⟨?_, rfl⟩
  decide

/-- C7 amended: every Stream add or update notification computes the key
from the object's own namespace/name and enqueues it unconditionally with
`AddRateLimited`; the update handler ignores the old value entirely. -/
theorem stream_notifications_enqueue_rate_limited :
    (∀ s : Stream, streamOnAdd s = EnqueueAction.addRateLimited (MetaNamespaceKeyFunc s.meta)) ∧
    (∀ old new : Stream, streamOnUpdate old new = streamOnAdd new) := by
  exact ⟨fun s => rfl, fun old new => rfl⟩

/-- C10: the spec of every Service the controller creates is the fixed
constant — one port, number 80, type NodePort — independent of the
owning Stream; any two created Services agree on every field other than
name, namespace, labels and owner references. -/
theorem created_service_spec_constant :
    (∀ s : Stream, (newService s).spec = ⟨[⟨80⟩], "NodePort"⟩) ∧
    (∀ s t : Stream,
      (newService s).spec = (newService t).spec ∧
      (newService s).meta.resourceVersion = (newService t).meta.resourceVersion ∧
      (newService s).meta.uid = (newService t).meta.uid) :=
  ⟨fun _ => rfl, fun _ _ => ⟨rfl, rfl, rfl⟩⟩

/-- Helper: the deep copy of a Stream is the Stream itself. -/
theorem deepCopy_eq (s : Stream) : s.deepCopy = s := rfl

/-- Helper: every Stream `syncOnService` passes to the remote update is
the cached Stream itself. -/
theorem syncOnService_updates (remote : Remote ρ) (stream : Stream) (service : Service)
    (cs : List Service) (r : ρ) :
    ∀ u ∈ (syncOnService remote stream service cs r).2.1.updates, u = stream := by
  unfold syncOnService
  by_cases h : IsControlledBy service.meta stream.meta
  · simp only [h, if_true]
    rcases hu : updateStreamStatus remote stream service r with ⟨res, r1⟩
    cases res <;> simp [deepCopy_eq]
  · simp [h]

/-- Helper: a Stream found in the cache at a namespace/name carries that
namespace and name in its own metadata. -/
theorem getStream_some_meta (cache : CacheState) (ns name : String) (stream : Stream)
    (h : getStream cache ns name = some stream) :
    stream.meta.ns = ns ∧ stream.meta.name = name := by
  unfold getStream at h
  have hp := List.find?_some h
  simp only [Bool.and_eq_true, beq_iff_eq] at hp
  exact hp

/-- C3: when the Stream is cached but the derived Service name is absent
from the cache, the sync remotely creates exactly the derived Service:
derived name, the Stream's namespace, a `stream` label naming the Stream,
and a single controller owner reference of kind Stream carrying the
Stream's name and uid; and if the remote create fails the sync returns
exactly that failure. -/
theorem absent_service_created_with_owner_ref (remote : Remote ρ) (cache : CacheState)
    (key ns name : String) (stream : Stream) (r : ρ)
    (hsplit : SplitMetaNamespaceKey key = some (ns, name))
    (hstream : getStream cache ns name = some stream)
    (hsvc : getService cache stream.meta.ns (StreamServiceName name) = none) :
    (syncHandler remote cache key r).2.1.creates = [newService stream] ∧
    (newService stream).meta.name = StreamServiceName stream.meta.name ∧
    (newService stream).meta.ns = stream.meta.ns ∧
    (newService stream).meta.labels = [("stream", stream.meta.name)] ∧
    (newService stream).meta.ownerReferences =
      [⟨SchemeGroup ++ "/" ++ SchemeVersion, "Stream",
        stream.meta.name, stream.meta.uid, true, true⟩] ∧
    (∀ e r1, remote.createService (newService stream) r = (Except.error e, r1) →
      syncHandler remote cache key r = (Except.error e, ⟨[newService stream], [], []⟩, r1)) := by
  refine ⟨?_, rfl, rfl, rfl, rfl, ?_⟩
  · rcases hc : remote.createService (newService stream) r with ⟨res, r1⟩
    cases res with
    | error e => simp [syncHandler, hsplit, hstream, hsvc, hc]
    | ok svc =>
        simpa [syncHandler, hsplit, hstream, hsvc, hc] using
          syncOnService_creates remote stream svc [newService stream] r1
  · intro e r1 hc
    simp [syncHandler, hsplit, hstream, hsvc, hc]

/-- Witness for C3: the fixture Stream with no cached Service and a
failing remote create. -/
theorem absent_service_created_with_owner_ref_witness :
    SplitMetaNamespaceKey "ns/s1" = some ("ns", "s1") ∧
    getStream wCacheNoSvc "ns" "s1" = some wStream ∧
    getService wCacheNoSvc "ns" (StreamServiceName "s1") = none ∧
    (syncHandler wRemoteCreateFail wCacheNoSvc "ns/s1" ()).2.1.creates = [newService wStream] ∧
    syncHandler wRemoteCreateFail wCacheNoSvc "ns/s1" () =
      (Except.error "connection refused", ⟨[newService wStream], [], []⟩, ()) := by
  have h := absent_service_created_with_owner_ref wRemoteCreateFail wCacheNoSvc
    "ns/s1" "ns" "s1" wStream () rfl rfl rfl
  exact ⟨rfl, rfl, rfl, h.1, h.2.2.2.2.2 "connection refused" () rfl⟩

/-- C9: the Stream sent to the remote Update is the deep copy of the
cached Stream with no field modified — the deep copy is the cached value
itself, `updateStreamStatus` sends it unchanged, and every Stream the
sync pass hands to the remote update equals the cached Stream, so the
status written is exactly the cached status and no new status value is
ever computed. -/
theorem status_update_sends_unmodified_copy (remote : Remote ρ) (cache : CacheState)
    (key ns name : String) (stream : Stream) (r : ρ)
    (hsplit : SplitMetaNamespaceKey key = some (ns, name))
    (hstream : getStream cache ns name = some stream) :
    stream.deepCopy = stream ∧
    (∀ (service : Service) (r2 : ρ),
      updateStreamStatus remote stream service r2 = remote.updateStream stream r2) ∧
    (∀ u ∈ (syncHandler remote cache key r).2.1.updates, u = stream) := by
  refine ⟨rfl, fun service r2 => rfl, ?_⟩
  rcases hsvc : getService cache stream.meta.ns (StreamServiceName name) with _ | service
  · rcases hc : remote.createService (newService stream) r with ⟨res, r1⟩
    cases res with
    | error e => simp [syncHandler, hsplit, hstream, hsvc, hc]
    | ok svc =>
        simpa [syncHandler, hsplit, hstream, hsvc, hc] using
          syncOnService_updates remote stream svc [newService stream] r1
  · simpa [syncHandler, hsplit, hstream, hsvc] using
      syncOnService_updates remote stream service [] r

/-- Witness for C9 on the converged fixture pair. -/
theorem status_update_sends_unmodified_copy_witness :
    SplitMetaNamespaceKey "ns/s1" = some ("ns", "s1") ∧
    getStream wCacheBoth "ns" "s1" = some wStream ∧
    wStream.deepCopy = wStream ∧
    (∀ u ∈ (syncHandler wRemoteOk wCacheBoth "ns/s1" ()).2.1.updates, u = wStream) := by
  have h := status_update_sends_unmodified_copy wRemoteOk wCacheBoth
    "ns/s1" "ns" "s1" wStream () rfl rfl
  exact ⟨rfl, rfl, h.1, h.2.2⟩

/-- C6: the dependent event router discards every notification — live
object or tombstone — that has no controlling owner reference, or whose
controlling reference is not of kind Stream, or whose owner Stream is
absent from the cache (and likewise undecodable inputs); otherwise it
enqueues exactly the owner Stream's key, the cached owner carrying the
dependent's namespace and the owner reference's name, never the
dependent's own key. -/
theorem handleObject_routes_owner_key (cache : CacheState) :
    handleObject cache HandleInput.invalidType = none ∧
    handleObject cache HandleInput.badTombstone = none ∧
    (∀ m : ObjectMeta, GetControllerOf m = none →
      handleObject cache (HandleInput.object m) = none ∧
      handleObject cache (HandleInput.tombstone m) = none) ∧
    (∀ (m : ObjectMeta) (ref : OwnerReference),
      GetControllerOf m = some ref → ref.kind ≠ "Stream" →
      handleObject cache (HandleInput.object m) = none ∧
      handleObject cache (HandleInput.tombstone m) = none) ∧
    (∀ (m : ObjectMeta) (ref : OwnerReference),
      GetControllerOf m = some ref → ref.kind = "Stream" →
      getStream cache m.ns ref.name = none →
      handleObject cache (HandleInput.object m) = none ∧
      handleObject cache (HandleInput.tombstone m) = none) ∧
    (∀ (m : ObjectMeta) (ref : OwnerReference) (stream : Stream),
      GetControllerOf m = some ref → ref.kind = "Stream" →
      getStream cache m.ns ref.name = some stream →
      stream.meta.ns = m.ns ∧ stream.meta.name = ref.name ∧
      handleObject cache (HandleInput.object m) =
        some (EnqueueAction.addRateLimited (MetaNamespaceKeyFunc stream.meta)) ∧
      handleObject cache (HandleInput.tombstone m) =
        some (EnqueueAction.addRateLimited (MetaNamespaceKeyFunc stream.meta))) := by
  refine ⟨rfl, rfl, ?_, ?_, ?_, ?_⟩
  · intro m hnone
    constructor <;> simp [handleObject, handleObjectMeta, hnone]
  · intro m ref href hkind
    constructor <;> simp [handleObject, handleObjectMeta, href, hkind]
  · intro m ref href hkind hs
    constructor <;> simp [handleObject, handleObjectMeta, href, hkind, hs]
  · intro m ref stream href hkind hs
    obtain ⟨hns, hname⟩ := getStream_some_meta cache m.ns ref.name stream hs
    refine ⟨hns, hname, ?_, ?_⟩ <;>
      simp [handleObject, handleObjectMeta, href, hkind, hs, enqueueStream]

/-- Witness for C6: a Service notification owned by the fixture Stream
routes to the owner's key, on the fixture cache. -/
theorem handleObject_routes_owner_key_witness :
    GetControllerOf wService.meta =
      some (NewControllerRef wStream.meta SchemeGroup SchemeVersion "Stream") ∧
    (NewControllerRef wStream.meta SchemeGroup SchemeVersion "Stream").kind = "Stream" ∧
    getStream wCacheBoth wService.meta.ns
      (NewControllerRef wStream.meta SchemeGroup SchemeVersion "Stream").name = some wStream ∧
    handleObject wCacheBoth (HandleInput.object wService.meta) =
      some (EnqueueAction.addRateLimited "ns/s1") ∧
    handleObject wCacheBoth (HandleInput.tombstone wService.meta) =
      some (EnqueueAction.addRateLimited "ns/s1") := by
  have h := (handleObject_routes_owner_key wCacheBoth).2.2.2.2.2 wService.meta
    (NewControllerRef wStream.meta SchemeGroup SchemeVersion "Stream") wStream rfl rfl rfl
  exact ⟨rfl, rfl, rfl, h.2.2.1, h.2.2.2⟩

/-- Helper: on the converged success path the sync pass against the
deterministic remote store succeeds, creates nothing, records the success
event, and replaces the remotely stored Stream of the same key by the
cached Stream, leaving remote Services untouched. -/
theorem runSync_converged (cache : CacheState) (key ns name : String)
    (stream : Stream) (service : Service) (r : RemoteState)
    (hsplit : SplitMetaNamespaceKey key = some (ns, name))
    (hstream : getStream cache ns name = some stream)
    (hsvc : getService cache stream.meta.ns (StreamServiceName name) = some service)
    (hctl : IsControlledBy service.meta stream.meta = true) :
    runSync cache key r =
      (Except.ok (),
       ⟨[], [stream], [⟨"Normal", SuccessSynced, MessageResourceSynced⟩]⟩,
       ⟨replaceStream stream r.streams, r.services⟩) := by
  simp [runSync, syncHandler, syncOnService, hsplit, hstream, hsvc, hctl,
    updateStreamStatus, remoteApi, remoteUpdateStream, deepCopy_eq]

/-- Helper: replacing by the same Stream twice is the same as replacing
once. -/
theorem replaceStream_idem (st : Stream) (l : List Stream) :
    replaceStream st (replaceStream st l) = replaceStream st l := by
  unfold replaceStream
  rw [List.map_map]
  congr 1
  funext a
  simp only [Function.comp_apply]
  by_cases h : (a.meta.ns == st.meta.ns && a.meta.name == st.meta.name) = true
  · rw [if_pos h, ite_self]
  · rw [if_neg h, if_neg h]

/-- C8: on a cache holding a Stream together with its derived, controlled
Service, running the sync twice in a row yields the same remote state as
running it once: both runs succeed, neither run creates a Service, and
the second run leaves the remote state exactly where the first left it. -/
theorem sync_idempotent_on_converged_pair (cache : CacheState) (key ns name : String)
    (stream : Stream) (service : Service) (r : RemoteState)
    (hsplit : SplitMetaNamespaceKey key = some (ns, name))
    (hstream : getStream cache ns name = some stream)
    (hsvc : getService cache stream.meta.ns (StreamServiceName name) = some service)
    (hctl : IsControlledBy service.meta stream.meta = true) :
    (runSync cache key r).1 = Except.ok () ∧
    (runSync cache key r).2.1.creates = [] ∧
    (runSync cache key ((runSync cache key r).2.2)).1 = Except.ok () ∧
    (runSync cache key ((runSync cache key r).2.2)).2.1.creates = [] ∧
    (runSync cache key ((runSync cache key r).2.2)).2.2 = (runSync cache key r).2.2 := by
  have h1 := runSync_converged cache key ns name stream service r hsplit hstream hsvc hctl
  have h2 := runSync_converged cache key ns name stream service
    ⟨replaceStream stream r.streams, r.services⟩ hsplit hstream hsvc hctl
  rw [h1]
  rw [h2]
  exact ⟨rfl, rfl, rfl, rfl, by simp [replaceStream_idem]⟩

/-- Witness for C8 on the converged fixture pair and matching remote. -/
theorem sync_idempotent_on_converged_pair_witness :
    SplitMetaNamespaceKey "ns/s1" = some ("ns", "s1") ∧
    getStream wCacheBoth "ns" "s1" = some wStream ∧
    getService wCacheBoth "ns" (StreamServiceName "s1") = some wService ∧
    IsControlledBy wService.meta wStream.meta = true ∧
    (runSync wCacheBoth "ns/s1" wRemoteBoth).1 = Except.ok () ∧
    (runSync wCacheBoth "ns/s1" ((runSync wCacheBoth "ns/s1" wRemoteBoth).2.2)).2.2 =
      (runSync wCacheBoth "ns/s1" wRemoteBoth).2.2 := by
  have h := sync_idempotent_on_converged_pair wCacheBoth "ns/s1" "ns" "s1"
    wStream wService wRemoteBoth rfl rfl rfl rfl
  exact ⟨rfl, rfl, rfl, rfl, h.1, h.2.2.2.2⟩

/-- Helper: replacing by `st` leaves a list unchanged when every entry of
the same key already equals `st`. -/
theorem replaceStream_eq_self (st : Stream) (l : List Stream)
    (h : ∀ t ∈ l, (t.meta.ns == st.meta.ns && t.meta.name == st.meta.name) = true → t = st) :
    replaceStream st l = l := by
  induction l with
  | nil => rfl
  | cons a l ih =>
    have tail := ih (fun t ht => h t (List.mem_cons_of_mem a ht))
    unfold replaceStream at tail ⊢
    simp only [List.map_cons, tail]
    by_cases ha : (a.meta.ns == st.meta.ns && a.meta.name == st.meta.name) = true
    · rw [if_pos ha, h a (List.mem_cons_self a l) ha]
    · rw [if_neg ha]

/-- C2: on the success path (Stream cached, derived Service cached and
controlled by it) the remote write persisting the status leaves the
Stream's spec — indeed every remotely stored object — unchanged.  The
object written is the unmodified deep copy of the cached Stream, and the
store's optimistic concurrency rejects any write whose resourceVersion
does not match the stored object's; the hypotheses state the store
invariants that make the input realizable: the store holds at most one
object per namespace/name, and the version token identifies the version
(a stored object with the cached object's key and resourceVersion is the
cached object). -/
theorem remote_write_leaves_spec_unchanged (cache : CacheState) (key ns name : String)
    (stream : Stream) (service : Service) (r : RemoteState)
    (hsplit : SplitMetaNamespaceKey key = some (ns, name))
    (hstream : getStream cache ns name = some stream)
    (hsvc : getService cache stream.meta.ns (StreamServiceName name) = some service)
    (hctl : IsControlledBy service.meta stream.meta = true)
    (hkeyed : ∀ t1 ∈ r.streams, ∀ t2 ∈ r.streams,
      t1.meta.ns = t2.meta.ns → t1.meta.name = t2.meta.name → t1 = t2)
    (hver : ∀ t ∈ r.streams, t.meta.ns = stream.meta.ns → t.meta.name = stream.meta.name →
      t.meta.resourceVersion = stream.meta.resourceVersion → t = stream) :
    (runSyncOCC cache key r).2.2 = r ∧
    (runSyncOCC cache key r).2.2.streams.map (fun s => s.spec) =
      r.streams.map (fun s => s.spec) := by
  have hmain : (runSyncOCC cache key r).2.2 = r := by
    rcases hfind : r.streams.find?
        (fun s => s.meta.ns == stream.meta.ns && s.meta.name == stream.meta.name) with _ | stored
    · simp [runSyncOCC, syncHandler, syncOnService, hsplit, hstream, hsvc, hctl,
        updateStreamStatus, remoteApiOCC, remoteUpdateStreamOCC, deepCopy_eq, hfind]
    · have hmem := List.mem_of_find?_eq_some hfind
      have hp := List.find?_some hfind
      simp only [Bool.and_eq_true, beq_iff_eq] at hp
      by_cases hrv : (stored.meta.resourceVersion == stream.meta.resourceVersion) = true
      · have hst : stored = stream :=
          hver stored hmem hp.1 hp.2 (by simpa using hrv)
        have hrepl : replaceStream stream r.streams = r.streams := by
          apply replaceStream_eq_self
          intro t ht hkey
          simp only [Bool.and_eq_true, beq_iff_eq] at hkey
          exact (hkeyed t ht stored hmem (hkey.1.trans hp.1.symm)
            (hkey.2.trans hp.2.symm)).trans hst
        simp [runSyncOCC, syncHandler, syncOnService, hsplit, hstream, hsvc, hctl,
          updateStreamStatus, remoteApiOCC, remoteUpdateStreamOCC, deepCopy_eq,
          hfind, hrv, hrepl]
      · simp [runSyncOCC, syncHandler, syncOnService, hsplit, hstream, hsvc, hctl,
          updateStreamStatus, remoteApiOCC, remoteUpdateStreamOCC, deepCopy_eq, hfind, hrv]
  exact ⟨hmain, by rw [hmain]⟩

/-- Witness for C2 on the converged fixture pair with the store agreeing
with the cache. -/
theorem remote_write_leaves_spec_unchanged_witness :
    SplitMetaNamespaceKey "ns/s1" = some ("ns", "s1") ∧
    getStream wCacheBoth "ns" "s1" = some wStream ∧
    getService wCacheBoth "ns" (StreamServiceName "s1") = some wService ∧
    IsControlledBy wService.meta wStream.meta = true ∧
    (∀ t1 ∈ wRemoteBoth.streams, ∀ t2 ∈ wRemoteBoth.streams,
      t1.meta.ns = t2.meta.ns → t1.meta.name = t2.meta.name → t1 = t2) ∧
    (∀ t ∈ wRemoteBoth.streams, t.meta.ns = wStream.meta.ns →
      t.meta.name = wStream.meta.name →
      t.meta.resourceVersion = wStream.meta.resourceVersion → t = wStream) ∧
    (runSyncOCC wCacheBoth "ns/s1" wRemoteBoth).2.2 = wRemoteBoth := by
  have h := remote_write_leaves_spec_unchanged wCacheBoth "ns/s1" "ns" "s1"
    wStream wService wRemoteBoth rfl rfl rfl rfl (by decide) (by decide)
  exact ⟨rfl, rfl, rfl, rfl, by decide, by decide, h.1⟩

end StreamSpike
